import Mathlib

/-!
Shallow embedding of the employee-management HTTP service
(user signup/login and employee CRUD over a document store).

The document store is modelled as a Lean list of documents; each HTTP
handler becomes a pure function from the store and the parsed request to
a response paired with the store after the request.  The external
collaborators declared out of scope by the specification are modelled
through their interfaces:

* the Credential Hasher (bcryptjs): `bcrypt.hash(p, 10)` is the opaque
  tagged value `PasswordValue.hashed p 10`; `bcrypt.compare` succeeds
  exactly on the matching plaintext and always fails against a stored
  value that is not a hash (bcryptjs returns false for a stored string
  that is not in bcrypt format);
* the Token Issuer (jsonwebtoken): `jwt.sign(\x7bid\x7d, secret, 1h)` is a
  record of the subject identifier and the validity window;
* the store primitives find-one / insert / update-by-id / delete-by-id
  operate on the list, with `_id` values unique because the store
  generates them.

Request bodies are JavaScript objects: each field is an `Option JsValue`
(absent, or a JSON scalar), so that JavaScript truthiness tests in the
validation code can be embedded faithfully.
-/

namespace EmpMgmt

/-- Provenance-tagged password value: either the output of the Credential
Hasher on some plaintext with the given salt rounds, or a raw plaintext
string stored as-is. -/
inductive PasswordValue where
  | hashed (plaintext : String) (saltRounds : Nat)
  | plain (s : String)
deriving DecidableEq, Repr

/-- A stored password is the Credential Hasher's output. -/
def isHashed : PasswordValue → Bool
  | .hashed _ _ => true
  | .plain _ => false

/-- Embeds bcrypt.compare(plaintext, stored): true exactly when the stored
value is a hash of this plaintext; a stored value that is not in bcrypt
format (a plaintext slipped into the password column) never verifies. -/
def bcryptCompare (plaintext : String) (stored : PasswordValue) : Bool :=
  match stored with
  | .hashed p _ => plaintext == p
  | .plain _ => false

/-- User document (models/User.js schema): username, unique email, password
(intended to be stored hashed), timestamps; `id` is the store-generated
`_id`. -/
structure User where
  id : Nat
  username : String
  email : String
  password : PasswordValue
  created_at : Nat
  updated_at : Nat
deriving DecidableEq, Repr

/-- Embeds `User.findOne(\x7bemail\x7d)`: first stored user with this email. -/
def userFindByEmail (db : List User) (email : String) : Option User :=
  db.find? (fun u => u.email == email)

/-- Signed bearer token (jwt.sign payload plus its validity window). -/
structure JwtToken where
  subject : Nat
  expiresInHours : Nat
deriving DecidableEq, Repr

/-- Response of the signup handler (controllers/userController.js). -/
inductive SignupResult where
  | validationFailure (status : Nat)
  | duplicate (status : Nat) (message : String)
  | created (status : Nat) (message : String) (user_id : Nat)
deriving DecidableEq, Repr

/-- Embeds `signup` of src/controllers/userController.js: reject when the
express-validator result is non-empty (`valErrors`), reject a duplicate
email with 400, otherwise hash the password with bcrypt (salt rounds 10),
insert the new user with current timestamps and answer 201 with the new
identifier.  `newId` is the store-generated `_id`, `now` the clock. -/
def signup (db : List User) (valErrors : Bool) (username email password : String)
    (newId now : Nat) : SignupResult × List User :=
  if valErrors then (.validationFailure 400, db)
  else
    match userFindByEmail db email with
    | some _ => (.duplicate 400 "Email already exists", db)
    | none =>
        let newUser : User :=
          { id := newId, username := username, email := email,
            password := .hashed password 10, created_at := now, updated_at := now }
        (.created 201 "User created successfully." newId, db ++ [newUser])

/-- Response of the login handler (controllers/userController.js). -/
inductive LoginResult where
  | validationFailure (status : Nat)
  | invalidCredentials (status : Nat) (message : String)
  | success (status : Nat) (message : String) (jwt_token : JwtToken)
deriving DecidableEq, Repr

/-- Embeds `login` of src/controllers/userController.js: look the user up by
email (400 with a generic message when absent), compare the password with
bcrypt (same 400 message on mismatch), else issue a 1-hour token bound to
the user's identifier and answer 200. -/
def login (db : List User) (valErrors : Bool) (email password : String) : LoginResult :=
  if valErrors then .validationFailure 400
  else
    match userFindByEmail db email with
    | none => .invalidCredentials 400 "Invalid username or password"
    | some user =>
        if bcryptCompare password user.password then
          .success 200 "Login successful." { subject := user.id, expiresInHours := 1 }
        else
          .invalidCredentials 400 "Invalid username or password"

/-- Embeds the temporary `GET /test` route of the server entry point
(src/unnamed/part_000 lines 20-24): it constructs a User with the literal
plaintext password "123456" (no call to the Credential Hasher) and saves
it; the schema defaults fill the timestamps. -/
def testRouteHandler (db : List User) (newId now : Nat) : String × List User :=
  ("Test user saved!",
   db ++ [{ id := newId, username := "test", email := "test@email.com",
            password := .plain "123456", created_at := now, updated_at := now }])

/-! Employee domain (routes/employeeRoutes.js, validated controller variant). -/

/-- JSON scalar fragment of a JavaScript value, as delivered by the body
parser for the fields the handlers read. -/
inductive JsValue where
  | vStr (s : String)
  | vNum (n : Int)
  | vNull
deriving DecidableEq, Repr

/-- JavaScript truthiness of a possibly-absent body field, as tested by
`if (!first_name || ...)`: absent, null, the empty string and the number
zero are falsy. -/
def truthy : Option JsValue → Bool
  | none => false
  | some .vNull => false
  | some (.vStr s) => !(s == "")
  | some (.vNum n) => !(n == 0)

/-- Value of the document key `profileImageUrl`: distinguishes a key that is
absent from the document from a key present with value null, from a key
holding a string (a stored path), and from a key holding a number (which a
JSON update payload may also carry). -/
inductive ImageField where
  | absent
  | nullValue
  | path (p : String)
  | numValue (n : Int)
deriving DecidableEq, Repr

/-- Value the store writes under `profileImageUrl` when an update payload
carries the scalar `v` for that key. -/
def imageFieldOfJs : JsValue → ImageField
  | .vStr s => .path s
  | .vNull => .nullValue
  | .vNum n => .numValue n

/-- Employee document as the controllers construct it: the seven body
fields, the image key, the timestamps and the store-generated `_id`. -/
structure EmployeeDoc where
  id : Nat
  first_name : Option JsValue
  last_name : Option JsValue
  email : Option JsValue
  position : Option JsValue
  salary : Option JsValue
  date_of_joining : Option JsValue
  department : Option JsValue
  profileImageUrl : ImageField
  created_at : Nat
  updated_at : Nat
deriving DecidableEq, Repr

/-- Parsed Create request: the seven body fields and the optional uploaded
file (multer's `req.file`, carrying the generated filename). -/
structure CreateReq where
  first_name : Option JsValue
  last_name : Option JsValue
  email : Option JsValue
  position : Option JsValue
  salary : Option JsValue
  date_of_joining : Option JsValue
  department : Option JsValue
  file : Option String
deriving DecidableEq, Repr

/-- Conjunction of the seven truthiness tests of the validated
createEmployee: `!first_name || !last_name || ... || !department`
negated. -/
def requiredTruthy (r : CreateReq) : Bool :=
  truthy r.first_name && truthy r.last_name && truthy r.email &&
  truthy r.position && truthy r.salary && truthy r.date_of_joining &&
  truthy r.department

/-- Embeds `Employee.findOne(\x7bemail\x7d)`: first stored employee whose
email key equals the queried value. -/
def empFindByEmail (db : List EmployeeDoc) (email : Option JsValue) :
    Option EmployeeDoc :=
  db.find? (fun d => d.email == email)

/-- Embeds `Employee.findById(eid)`: the stored employee with this `_id`. -/
def empFindById (db : List EmployeeDoc) (eid : Nat) : Option EmployeeDoc :=
  db.find? (fun d => d.id == eid)

/-- Response of the validated createEmployee. -/
inductive EmpCreateResult where
  | badRequest (status : Nat) (message : String)
  | created (status : Nat) (message : String) (employee_id : Nat)
      (profileImageUrl : ImageField)
deriving DecidableEq, Repr

/-- Embeds the validated `createEmployee` (routes/employeeRoutes.js lines
129-171): 400 when any of the seven destructured fields is falsy, 400 when
an employee with the body's email already exists, otherwise compute
`imagePath = req.file ? "/uploads/" + filename : null`, insert the new
document with `profileImageUrl: imagePath` and the timestamps, and answer
201 with the identifier and the image path. -/
def createEmployee (db : List EmployeeDoc) (r : CreateReq) (newId now : Nat) :
    EmpCreateResult × List EmployeeDoc :=
  if !requiredTruthy r then (.badRequest 400 "All fields are required", db)
  else
    match empFindByEmail db r.email with
    | some _ =>
        (.badRequest 400 "Employee with this email already exists", db)
    | none =>
        let imagePath : ImageField :=
          match r.file with
          | some f => .path ("/uploads/" ++ f)
          | none => .nullValue
        let emp : EmployeeDoc :=
          { id := newId, first_name := r.first_name, last_name := r.last_name,
            email := r.email, position := r.position, salary := r.salary,
            date_of_joining := r.date_of_joining, department := r.department,
            profileImageUrl := imagePath, created_at := now, updated_at := now }
        (.created 201 "Employee created successfully." newId imagePath,
         db ++ [emp])

/-- Response of getEmployeeById. -/
inductive EmpGetResult where
  | notFound (status : Nat) (message : String)
  | ok (status : Nat) (emp : EmployeeDoc)
deriving DecidableEq, Repr

/-- Embeds `getEmployeeById`: findById, 404 when absent, else 200 with the
document. -/
def getEmployeeById (db : List EmployeeDoc) (eid : Nat) : EmpGetResult :=
  match empFindById db eid with
  | none => .notFound 404 "Employee not found."
  | some e => .ok 200 e

/-- Parsed Update request: the partial body (any subset of the seven
schema fields, and possibly a `profileImageUrl` key — the handler spreads
`req.body` wholesale into the update payload) plus the optional uploaded
file. -/
structure UpdateReq where
  first_name : Option JsValue
  last_name : Option JsValue
  email : Option JsValue
  position : Option JsValue
  salary : Option JsValue
  date_of_joining : Option JsValue
  department : Option JsValue
  profileImageUrl : Option JsValue
  file : Option String
deriving DecidableEq, Repr

/-- Merge of one update-payload field onto the stored document, the store
adapter's partial-update semantics: a field present in the payload
overwrites, an absent one leaves the stored value. -/
def mergeField (payload stored : Option JsValue) : Option JsValue :=
  match payload with
  | some v => some v
  | none => stored

/-- Document after `findByIdAndUpdate(eid, updatedData)` where
`updatedData = \x7b...req.body, updated_at: now\x7d`, overwritten by
`profileImageUrl = "/uploads/" + filename` when a file was uploaded
(`imagePath` is undefined otherwise and is then not set, leaving whatever
`profileImageUrl` key the spread body carried, or no key at all). -/
def applyUpdate (d : EmployeeDoc) (r : UpdateReq) (now : Nat) : EmployeeDoc :=
  { id := d.id,
    first_name := mergeField r.first_name d.first_name,
    last_name := mergeField r.last_name d.last_name,
    email := mergeField r.email d.email,
    position := mergeField r.position d.position,
    salary := mergeField r.salary d.salary,
    date_of_joining := mergeField r.date_of_joining d.date_of_joining,
    department := mergeField r.department d.department,
    profileImageUrl :=
      match r.file with
      | some f => .path ("/uploads/" ++ f)
      | none =>
          match r.profileImageUrl with
          | some v => imageFieldOfJs v
          | none => d.profileImageUrl,
    created_at := d.created_at,
    updated_at := now }

/-- Response of updateEmployee and deleteEmployee. -/
inductive EmpWriteResult where
  | notFound (status : Nat) (message : String)
  | ok (status : Nat) (message : String)
deriving DecidableEq, Repr

/-- Embeds `updateEmployee` (routes/employeeRoutes.js lines 189-219):
find-and-update by id with the merged payload, 404 when no document has
the id, 200 with a success message otherwise.  The store holds one
document per `_id`, so update-by-id rewrites exactly the documents
carrying the id. -/
def updateEmployee (db : List EmployeeDoc) (eid : Nat) (r : UpdateReq)
    (now : Nat) : EmpWriteResult × List EmployeeDoc :=
  match empFindById db eid with
  | none => (.notFound 404 "Employee not found.", db)
  | some _ =>
      (.ok 200 "Employee updated successfully.",
       db.map (fun d => if d.id == eid then applyUpdate d r now else d))

/-- Embeds `deleteEmployee` (routes/employeeRoutes.js lines 222-235, the
variant reading `req.params.eid`): `findByIdAndDelete`, 404 when no
document has the id, else the document is removed and the handler answers
200.  Ids are store-generated and unique, so delete-by-id removes exactly
the documents carrying the id. -/
def deleteEmployeeById (db : List EmployeeDoc) (eid : Nat) :
    EmpWriteResult × List EmployeeDoc :=
  match empFindById db eid with
  | none => (.notFound 404 "Employee not found.", db)
  | some _ =>
      (.ok 200 "Employee deleted successfully.",
       db.filter (fun d => !(d.id == eid)))

/-- Truthiness of a query-string value (`if (department)`): absent or
empty means no constraint. -/
def qTruthy : Option String → Bool
  | none => false
  | some s => !(s == "")

/-- Lower-cases a character list (case folding, the relevant fragment of
the store's case-insensitive matching). -/
def lowerChars (cs : List Char) : List Char :=
  cs.map Char.toLower

/-- Containment of `needle` in `hay` as lists of characters. -/
def listContains (hay needle : List Char) : Bool :=
  match hay with
  | [] => needle == []
  | _ :: t => needle.isPrefixOf hay || listContains t needle

/-- Case-insensitive substring containment: the evaluation the store gives
the filter `\x7b$regex: needle, $options: "i"\x7d` for a pattern of plain
text (no regex metacharacters). -/
def containsCI (hay needle : String) : Bool :=
  listContains (lowerChars hay.data) (lowerChars needle.data)

/-- Case-insensitive substring match of a filter against a stored field:
only a string-valued field can match a text pattern. -/
def fieldContainsCI (f : Option JsValue) (q : String) : Bool :=
  match f with
  | some (.vStr s) => containsCI s q
  | some (.vNum _) => false
  | some .vNull => false
  | none => false

/-- Filter object the search handler builds: a key is added only for a
truthy query value. -/
structure EmpFilter where
  department : Option String
  position : Option String
deriving DecidableEq, Repr

/-- Embeds the filter construction of `searchEmployees`:
`if (department) filter.department = ...; if (position) ...`. -/
def buildFilter (dq pq : Option String) : EmpFilter :=
  { department := if qTruthy dq then dq else none,
    position := if qTruthy pq then pq else none }

/-- Evaluation of one filter key by the store: an absent key imposes
nothing, a present key requires the case-insensitive match. -/
def filterPartHolds (qs : Option String) (f : Option JsValue) : Bool :=
  match qs with
  | none => true
  | some q => fieldContainsCI f q

/-- Evaluation of the filter object by the store: every present key must
match its field (conjunction); an absent key imposes nothing. -/
def filterMatches (f : EmpFilter) (d : EmployeeDoc) : Bool :=
  filterPartHolds f.department d.department &&
  filterPartHolds f.position d.position

/-- Embeds `searchEmployees` (routes/employeeRoutes.js lines 238-253):
build the filter from the query, `Employee.find(filter)`, answer 200 with
the (possibly empty) result list. -/
def searchEmployees (db : List EmployeeDoc) (dq pq : Option String) :
    Nat × List EmployeeDoc :=
  (200, db.filter (fun d => filterMatches (buildFilter dq pq) d))

/-- One of the seven required body fields holds the empty string (a field
JavaScript destructuring delivers but truthiness rejects). -/
def hasEmptyStrField (r : CreateReq) : Bool :=
  r.first_name == some (.vStr "") || r.last_name == some (.vStr "") ||
  r.email == some (.vStr "") || r.position == some (.vStr "") ||
  r.salary == some (.vStr "") || r.date_of_joining == some (.vStr "") ||
  r.department == some (.vStr "")

/-! Route wiring of the server variant whose routes file registers
`router.delete("/employees", deleteEmployee)` with the id carried in the
`?eid=` query parameter (routes/employeeRoutes.js lines 63-68).  That
routes file imports exactly the five symbols the documented controller
variant exports, so the wired deleteEmployee is the one at lines 494-514,
which reads `req.query.eid` and answers 204 on success. -/

/-- Appending a matching element to a list in which nothing matches makes
`find?` return that element. -/
theorem find?_append_of_none {α : Type} (p : α → Bool) (l : List α) (a : α)
    (h : l.find? p = none) (ha : p a = true) : (l ++ [a]).find? p = some a := by
  induction l with
  | nil => simp [List.find?, ha]
  | cons x t ih =>
    simp only [List.find?] at h
    cases hx : p x with
    | true => simp [hx] at h
    | false =>
      simp only [hx] at h
      simp only [List.cons_append, List.find?, hx]
      exact ih h

/-! Claim C1. -/

/-- C1: for every login request, the failure response for an email with no
matching User and the failure response for a matching User whose stored
password fails the bcrypt comparison are both status 400 and carry the
byte-identical message "Invalid username or password", so the two failure
causes are indistinguishable to the caller. -/
theorem login_failure_causes_indistinguishable (db : List User) (email pw : String) :
    (userFindByEmail db email = none →
      login db false email pw =
        .invalidCredentials 400 "Invalid username or password") ∧
    (∀ u, userFindByEmail db email = some u → bcryptCompare pw u.password = false →
      login db false email pw =
        .invalidCredentials 400 "Invalid username or password") := by
  refine ⟨fun h => ?_, fun u hu hv => ?_⟩
  · simp [login, h]
  · simp [login, hu, hv]

/-- Witness for C1: both failure causes at concrete inputs — an unknown
email against an empty store, and a wrong password against a store holding
the signed-up user — produce the same 400 response. -/
theorem login_failure_causes_indistinguishable_witness :
    login [] false "a@x.com" "pw" =
      .invalidCredentials 400 "Invalid username or password" ∧
    login [{ id := 1, username := "a", email := "a@x.com",
             password := .hashed "secret1" 10, created_at := 0, updated_at := 0 }]
        false "a@x.com" "wrong" =
      .invalidCredentials 400 "Invalid username or password" := by
  constructor
  · exact (login_failure_causes_indistinguishable [] "a@x.com" "pw").1 rfl
  · exact (login_failure_causes_indistinguishable _ "a@x.com" "wrong").2 _ rfl rfl

/-! Claim C2. -/

/-- C2 counterexample: the temporary GET /test route persists a User whose
stored password field is the plaintext "123456" supplied in the handler,
not an output of the Credential Hasher. -/
theorem testRoute_stores_plaintext_password :
    (testRouteHandler [] 1 0).2.map (fun u => u.password) =
      [PasswordValue.plain "123456"] ∧
    (testRouteHandler [] 1 0).2.all (fun u => isHashed u.password) = false := by
  exact ⟨rfl, rfl⟩

/-- C2 amended: every User that a signup request adds to the store carries
the Credential Hasher's output (bcrypt at salt rounds 10) in its password
field, never the caller's plaintext, and the signup response is
independent of the supplied password (so no response carries it); the
temporary GET /test route, by contrast, persists a plaintext password. -/
theorem signup_stores_only_hashed_passwords (db : List User) (ve : Bool)
    (un em pw pw2 : String) (nid now : Nat) :
    (∀ u, u ∈ (signup db ve un em pw nid now).2 →
      u ∈ db ∨ u.password = PasswordValue.hashed pw 10) ∧
    (signup db ve un em pw nid now).1 = (signup db ve un em pw2 nid now).1 := by
  unfold signup
  cases ve with
  | true => exact ⟨fun u hu => Or.inl hu, rfl⟩
  | false =>
    cases hf : userFindByEmail db em with
    | some u0 => exact ⟨fun u hu => Or.inl hu, rfl⟩
    | none =>
      refine ⟨fun u hu => ?_, rfl⟩
      rcases List.mem_append.mp hu with h1 | h1
      · exact Or.inl h1
      · exact Or.inr (by rw [List.mem_singleton.mp h1])

/-- Witness for C2's amended theorem: a concrete signup on the empty store
persists exactly one user, whose password is the hash of the plaintext. -/
theorem signup_stores_only_hashed_passwords_witness :
    ∀ u, u ∈ (signup [] false "a" "a@x.com" "secret1" 1 0).2 →
      u ∈ ([] : List User) ∨ u.password = PasswordValue.hashed "secret1" 10 :=
  (signup_stores_only_hashed_passwords [] false "a" "a@x.com" "secret1" "x" 1 0).1

/-! Claim C4. -/

/-- C4: a signup whose email matches an existing User fails with 400
DuplicateEmail and inserts nothing; a signup with a previously unused
email succeeds with 201 returning the new identifier, and succeeds only
once: a second signup with the same email against the resulting store
fails with 400 DuplicateEmail and leaves the store unchanged. -/
theorem signup_duplicate_email_rejected (db : List User)
    (un em pw un2 pw2 : String) (nid now nid2 now2 : Nat) :
    (∀ u, userFindByEmail db em = some u →
      signup db false un em pw nid now =
        (.duplicate 400 "Email already exists", db)) ∧
    (userFindByEmail db em = none →
      (signup db false un em pw nid now).1 =
        .created 201 "User created successfully." nid ∧
      signup (signup db false un em pw nid now).2 false un2 em pw2 nid2 now2 =
        (.duplicate 400 "Email already exists",
         (signup db false un em pw nid now).2)) := by
  refine ⟨fun u hu => ?_, fun h => ?_⟩
  · simp [signup, hu]
  · have hdb2 : (signup db false un em pw nid now).2 =
        db ++ [{ id := nid, username := un, email := em,
                 password := .hashed pw 10, created_at := now, updated_at := now }] := by
      simp [signup, h]
    have hfind : userFindByEmail
        (db ++ [{ id := nid, username := un, email := em,
                  password := .hashed pw 10, created_at := now, updated_at := now }]) em =
        some { id := nid, username := un, email := em,
               password := .hashed pw 10, created_at := now, updated_at := now } :=
      find?_append_of_none _ db _ h (by simp [userFindByEmail])
    refine ⟨by simp [signup, h], ?_⟩
    rw [hdb2]
    simp [signup, hfind]

/-- Witness for C4: concrete double signup — the first with a fresh email
answers 201, the second with the same email answers 400 and leaves the
store as the first left it. -/
theorem signup_duplicate_email_rejected_witness :
    (signup [] false "a" "a@x.com" "secret1" 1 0).1 =
      .created 201 "User created successfully." 1 ∧
    signup (signup [] false "a" "a@x.com" "secret1" 1 0).2 false "b" "a@x.com" "pw" 2 1 =
      (.duplicate 400 "Email already exists",
       (signup [] false "a" "a@x.com" "secret1" 1 0).2) :=
  (signup_duplicate_email_rejected [] "a" "a@x.com" "secret1" "b" "pw" 1 0 2 1).2 rfl

/-! Claim C3. -/

/-- C3: an Employee Create request with any required field missing (falsy)
fails with status 400, and one whose email matches an existing Employee
fails with status 400; in both cases the store is returned unchanged, so
no document is inserted. -/
theorem createEmployee_rejects_missing_and_duplicate (db : List EmployeeDoc)
    (r : CreateReq) (nid now : Nat) :
    (requiredTruthy r = false →
      createEmployee db r nid now =
        (.badRequest 400 "All fields are required", db)) ∧
    (requiredTruthy r = true → ∀ d, empFindByEmail db r.email = some d →
      createEmployee db r nid now =
        (.badRequest 400 "Employee with this email already exists", db)) := by
  refine ⟨fun h => ?_, fun ht d hd => ?_⟩
  · simp [createEmployee, h]
  · simp [createEmployee, ht, hd]

/-- Witness for C3: a request missing first_name is rejected 400 against
the empty store, and a complete request whose email equals a stored
employee's is rejected 400 with the store unchanged. -/
theorem createEmployee_rejects_missing_and_duplicate_witness :
    createEmployee []
        { first_name := none, last_name := some (.vStr "Doe"),
          email := some (.vStr "e@x.com"), position := some (.vStr "Dev"),
          salary := some (.vNum 1), date_of_joining := some (.vStr "2024-01-01"),
          department := some (.vStr "IT"), file := none } 1 0 =
      (.badRequest 400 "All fields are required", []) ∧
    createEmployee
        [{ id := 7, first_name := some (.vStr "A"), last_name := some (.vStr "B"),
           email := some (.vStr "e@x.com"), position := some (.vStr "Dev"),
           salary := some (.vNum 1), date_of_joining := some (.vStr "2024-01-01"),
           department := some (.vStr "IT"), profileImageUrl := .nullValue,
           created_at := 0, updated_at := 0 }]
        { first_name := some (.vStr "John"), last_name := some (.vStr "Doe"),
          email := some (.vStr "e@x.com"), position := some (.vStr "Dev"),
          salary := some (.vNum 1), date_of_joining := some (.vStr "2024-01-01"),
          department := some (.vStr "IT"), file := none } 8 1 =
      (.badRequest 400 "Employee with this email already exists",
       [{ id := 7, first_name := some (.vStr "A"), last_name := some (.vStr "B"),
          email := some (.vStr "e@x.com"), position := some (.vStr "Dev"),
          salary := some (.vNum 1), date_of_joining := some (.vStr "2024-01-01"),
          department := some (.vStr "IT"), profileImageUrl := .nullValue,
          created_at := 0, updated_at := 0 }]) := by
  constructor
  · exact (createEmployee_rejects_missing_and_duplicate [] _ 1 0).1 rfl
  · exact (createEmployee_rejects_missing_and_duplicate _ _ 8 1).2 rfl _ rfl

/-! Claim C9. -/

/-- C9: in the validated Create variant, a request whose salary field is
the number 0, or any of whose seven required fields is the empty string,
is rejected with status 400 and the message "All fields are required"
even though every field is present, because presence is tested by
JavaScript truthiness. -/
theorem createEmployee_truthiness_rejects_zero_and_empty (db : List EmployeeDoc)
    (r : CreateReq) (nid now : Nat) :
    (r.salary = some (.vNum 0) →
      createEmployee db r nid now =
        (.badRequest 400 "All fields are required", db)) ∧
    (hasEmptyStrField r = true →
      createEmployee db r nid now =
        (.badRequest 400 "All fields are required", db)) := by
  refine ⟨fun h => ?_, fun h => ?_⟩
  · simp [createEmployee, requiredTruthy, truthy, h]
  · simp only [hasEmptyStrField, Bool.or_eq_true, beq_iff_eq] at h
    rcases h with ((((((h | h) | h) | h) | h) | h) | h) <;>
      simp [createEmployee, requiredTruthy, truthy, h]

/-- Witness for C9: a request with every field present but salary 0 is
rejected, and one with department the empty string is rejected, both with
status 400 and the missing-fields message. -/
theorem createEmployee_truthiness_rejects_zero_and_empty_witness :
    createEmployee []
        { first_name := some (.vStr "John"), last_name := some (.vStr "Doe"),
          email := some (.vStr "e@x.com"), position := some (.vStr "Dev"),
          salary := some (.vNum 0), date_of_joining := some (.vStr "2024-01-01"),
          department := some (.vStr "IT"), file := none } 1 0 =
      (.badRequest 400 "All fields are required", []) ∧
    createEmployee []
        { first_name := some (.vStr "John"), last_name := some (.vStr "Doe"),
          email := some (.vStr "e@x.com"), position := some (.vStr "Dev"),
          salary := some (.vNum 1), date_of_joining := some (.vStr "2024-01-01"),
          department := some (.vStr ""), file := none } 1 0 =
      (.badRequest 400 "All fields are required", []) := by
  constructor
  · exact (createEmployee_truthiness_rejects_zero_and_empty [] _ 1 0).1 rfl
  · exact (createEmployee_truthiness_rejects_zero_and_empty [] _ 1 0).2 rfl

/-! Claim C10. -/

/-- C10: in the validated Create variant, a successful creation without an
uploaded file inserts a document whose profileImageUrl key is explicitly
present with value null (ImageField.nullValue) — not absent — and the 201
response reports that null image path. -/
theorem createEmployee_no_file_image_key_null (db : List EmployeeDoc)
    (r : CreateReq) (nid now : Nat) :
    requiredTruthy r = true → empFindByEmail db r.email = none → r.file = none →
    (createEmployee db r nid now).2 =
      db ++ [{ id := nid, first_name := r.first_name, last_name := r.last_name,
               email := r.email, position := r.position, salary := r.salary,
               date_of_joining := r.date_of_joining, department := r.department,
               profileImageUrl := ImageField.nullValue,
               created_at := now, updated_at := now }] ∧
    (createEmployee db r nid now).1 =
      .created 201 "Employee created successfully." nid ImageField.nullValue := by
  intro h1 h2 h3
  refine ⟨?_, ?_⟩ <;> simp [createEmployee, h1, h2, h3]

/-- Witness for C10: a concrete fileless creation against the empty store
inserts one document whose image key holds null. -/
theorem createEmployee_no_file_image_key_null_witness :
    (createEmployee []
        { first_name := some (.vStr "John"), last_name := some (.vStr "Doe"),
          email := some (.vStr "e@x.com"), position := some (.vStr "Dev"),
          salary := some (.vNum 1), date_of_joining := some (.vStr "2024-01-01"),
          department := some (.vStr "IT"), file := none } 1 0).2 =
      [] ++ [{ id := 1, first_name := some (.vStr "John"),
               last_name := some (.vStr "Doe"), email := some (.vStr "e@x.com"),
               position := some (.vStr "Dev"), salary := some (.vNum 1),
               date_of_joining := some (.vStr "2024-01-01"),
               department := some (.vStr "IT"),
               profileImageUrl := ImageField.nullValue,
               created_at := 0, updated_at := 0 }] ∧
    (createEmployee []
        { first_name := some (.vStr "John"), last_name := some (.vStr "Doe"),
          email := some (.vStr "e@x.com"), position := some (.vStr "Dev"),
          salary := some (.vNum 1), date_of_joining := some (.vStr "2024-01-01"),
          department := some (.vStr "IT"), file := none } 1 0).1 =
      .created 201 "Employee created successfully." 1 ImageField.nullValue :=
  createEmployee_no_file_image_key_null [] _ 1 0 rfl rfl rfl

/-! Claim C5. -/

/-- Mapping a function that does not change which elements satisfy the
predicate maps the result of `find?`. -/
theorem find?_map_pres {α : Type} (p : α → Bool) (g : α → α) (l : List α)
    (hp : ∀ x, p (g x) = p x) (a : α) (h : l.find? p = some a) :
    (l.map g).find? p = some (g a) := by
  induction l with
  | nil => simp [List.find?] at h
  | cons x t ih =>
    cases hx : p x with
    | true =>
      rw [List.find?_cons_of_pos _ hx] at h
      injection h with h
      subst h
      simp only [List.map]
      rw [List.find?_cons_of_pos _ (by rw [hp]; exact hx)]
    | false =>
      rw [List.find?_cons_of_neg _ (by simp [hx])] at h
      simp only [List.map]
      rw [List.find?_cons_of_neg _ (by simp [hp x, hx])]
      exact ih h

/-- Update-by-id rewrites the found document in place: looking the id up
after the update returns the merged document. -/
theorem empFindById_map_update (db : List EmployeeDoc) (eid : Nat) (r : UpdateReq)
    (now : Nat) (d : EmployeeDoc) (h : empFindById db eid = some d) :
    empFindById (db.map (fun x => if x.id == eid then applyUpdate x r now else x)) eid =
      some (if d.id == eid then applyUpdate d r now else d) := by
  have h2 : db.find? (fun y => y.id == eid) = some d := h
  exact find?_map_pres (fun y => y.id == eid)
    (fun x => if x.id == eid then applyUpdate x r now else x) db
    (fun x => by by_cases hx : x.id = eid <;> simp [hx, applyUpdate]) d h2

/-- C5 counterexample: an update request that supplies no uploaded file
but whose body carries the key `profileImageUrl: null` is spread into the
update payload, so it clears the stored image path: the handler answers
200 and the stored key drops from the path "/uploads/p.png" to null. -/
theorem updateEmployee_body_key_clears_image :
    (updateEmployee
       [{ id := 3, first_name := some (.vStr "A"), last_name := some (.vStr "B"),
          email := some (.vStr "e@x.com"), position := some (.vStr "Dev"),
          salary := some (.vNum 1), date_of_joining := some (.vStr "2024-01-01"),
          department := some (.vStr "IT"), profileImageUrl := .path "/uploads/p.png",
          created_at := 0, updated_at := 0 }] 3
       { first_name := none, last_name := none, email := none, position := none,
         salary := none, date_of_joining := none, department := none,
         profileImageUrl := some .vNull, file := none } 5).1 =
      .ok 200 "Employee updated successfully." ∧
    (updateEmployee
       [{ id := 3, first_name := some (.vStr "A"), last_name := some (.vStr "B"),
          email := some (.vStr "e@x.com"), position := some (.vStr "Dev"),
          salary := some (.vNum 1), date_of_joining := some (.vStr "2024-01-01"),
          department := some (.vStr "IT"), profileImageUrl := .path "/uploads/p.png",
          created_at := 0, updated_at := 0 }] 3
       { first_name := none, last_name := none, email := none, position := none,
         salary := none, date_of_joining := none, department := none,
         profileImageUrl := some .vNull, file := none } 5).2.map
      (fun d => d.profileImageUrl) = [ImageField.nullValue] := by
  exact ⟨rfl, rfl⟩

/-- C5 amended: when updateEmployee finds the target document, it answers
200 and the stored document becomes the merge of the payload onto it; on
that merged document the image key is untouched when neither a file nor a
body-supplied profileImageUrl key is present, is replaced with the new
upload path whenever a file is uploaded (overriding any body key), and —
without a file — takes whatever value a body-supplied profileImageUrl key
carries, which can change or clear the stored path. -/
theorem updateEmployee_image_frame (db : List EmployeeDoc) (eid : Nat)
    (r : UpdateReq) (now : Nat) (d : EmployeeDoc) :
    empFindById db eid = some d →
    (updateEmployee db eid r now).1 = .ok 200 "Employee updated successfully." ∧
    empFindById (updateEmployee db eid r now).2 eid = some (applyUpdate d r now) ∧
    (r.file = none → r.profileImageUrl = none →
      (applyUpdate d r now).profileImageUrl = d.profileImageUrl) ∧
    (∀ f, r.file = some f →
      (applyUpdate d r now).profileImageUrl = ImageField.path ("/uploads/" ++ f)) ∧
    (∀ v, r.file = none → r.profileImageUrl = some v →
      (applyUpdate d r now).profileImageUrl = imageFieldOfJs v) := by
  intro h
  refine ⟨by simp [updateEmployee, h], ?_, fun hf hb => ?_, fun f hf => ?_,
    fun v hf hb => ?_⟩
  · have hfp : db.find? (fun y => y.id == eid) = some d := h
    have hd : (d.id == eid) = true := by simpa using List.find?_some hfp
    have h2 := empFindById_map_update db eid r now d h
    rw [if_pos hd] at h2
    simpa [updateEmployee, h] using h2
  · simp [applyUpdate, hf, hb]
  · simp [applyUpdate, hf]
  · simp [applyUpdate, hf, hb]

/-- Witness for C5: updating a stored employee that carries an image path,
with a payload changing the position and carrying no file, preserves the
stored path; the same update with a file replaces it. -/
theorem updateEmployee_image_frame_witness :
    (applyUpdate
       { id := 3, first_name := some (.vStr "A"), last_name := some (.vStr "B"),
         email := some (.vStr "e@x.com"), position := some (.vStr "Dev"),
         salary := some (.vNum 1), date_of_joining := some (.vStr "2024-01-01"),
         department := some (.vStr "IT"), profileImageUrl := .path "/uploads/p.png",
         created_at := 0, updated_at := 0 }
       { first_name := none, last_name := none, email := none,
         position := some (.vStr "Lead"), salary := none, date_of_joining := none,
         department := none, profileImageUrl := none, file := none } 5).profileImageUrl =
      ImageField.path "/uploads/p.png" ∧
    (updateEmployee
       [{ id := 3, first_name := some (.vStr "A"), last_name := some (.vStr "B"),
          email := some (.vStr "e@x.com"), position := some (.vStr "Dev"),
          salary := some (.vNum 1), date_of_joining := some (.vStr "2024-01-01"),
          department := some (.vStr "IT"), profileImageUrl := .path "/uploads/p.png",
          created_at := 0, updated_at := 0 }] 3
       { first_name := none, last_name := none, email := none,
         position := some (.vStr "Lead"), salary := none, date_of_joining := none,
         department := none, profileImageUrl := none, file := none } 5).1 =
      .ok 200 "Employee updated successfully." := by
  constructor
  · exact ((updateEmployee_image_frame
      [{ id := 3, first_name := some (.vStr "A"), last_name := some (.vStr "B"),
         email := some (.vStr "e@x.com"), position := some (.vStr "Dev"),
         salary := some (.vNum 1), date_of_joining := some (.vStr "2024-01-01"),
         department := some (.vStr "IT"), profileImageUrl := .path "/uploads/p.png",
         created_at := 0, updated_at := 0 }] 3
      { first_name := none, last_name := none, email := none,
        position := some (.vStr "Lead"), salary := none, date_of_joining := none,
        department := none, profileImageUrl := none, file := none } 5
      { id := 3, first_name := some (.vStr "A"), last_name := some (.vStr "B"),
        email := some (.vStr "e@x.com"), position := some (.vStr "Dev"),
        salary := some (.vNum 1), date_of_joining := some (.vStr "2024-01-01"),
        department := some (.vStr "IT"), profileImageUrl := .path "/uploads/p.png",
        created_at := 0, updated_at := 0 } rfl).2.2.1 rfl rfl)
  · exact ((updateEmployee_image_frame
      [{ id := 3, first_name := some (.vStr "A"), last_name := some (.vStr "B"),
         email := some (.vStr "e@x.com"), position := some (.vStr "Dev"),
         salary := some (.vNum 1), date_of_joining := some (.vStr "2024-01-01"),
         department := some (.vStr "IT"), profileImageUrl := .path "/uploads/p.png",
         created_at := 0, updated_at := 0 }] 3
      { first_name := none, last_name := none, email := none,
        position := some (.vStr "Lead"), salary := none, date_of_joining := none,
        department := none, profileImageUrl := none, file := none } 5
      { id := 3, first_name := some (.vStr "A"), last_name := some (.vStr "B"),
        email := some (.vStr "e@x.com"), position := some (.vStr "Dev"),
        salary := some (.vNum 1), date_of_joining := some (.vStr "2024-01-01"),
        department := some (.vStr "IT"), profileImageUrl := .path "/uploads/p.png",
        created_at := 0, updated_at := 0 } rfl).1)

/-! Claim C6. -/

/-- A filter key built from the query holds of a field exactly when every
supplied non-empty query text matches the field case-insensitively. -/
theorem filterPartHolds_build_iff (qopt : Option String) (f : Option JsValue) :
    filterPartHolds (if qTruthy qopt then qopt else none) f = true ↔
      (∀ q, qopt = some q → q ≠ "" → fieldContainsCI f q = true) := by
  cases qopt with
  | none => simp [qTruthy, filterPartHolds]
  | some s =>
    by_cases hs : s = ""
    · subst hs
      simp [qTruthy, filterPartHolds]
    · have hq : qTruthy (some s) = true := by simp [qTruthy, hs]
      rw [if_pos hq]
      simp only [filterPartHolds]
      constructor
      · intro h q hq2 _
        injection hq2 with h2
        rw [← h2]
        exact h
      · intro h
        exact h s rfl hs

/-- C6: every search answers status 200 (an empty match list is not an
error), and a document is in the result exactly when it is stored and
each supplied non-empty filter text occurs case-insensitively as a
substring of the corresponding field — both filters combined by
conjunction, an absent or empty filter imposing nothing. -/
theorem searchEmployees_substring_semantics (db : List EmployeeDoc)
    (dq pq : Option String) (d : EmployeeDoc) :
    (searchEmployees db dq pq).1 = 200 ∧
    (d ∈ (searchEmployees db dq pq).2 ↔
      d ∈ db ∧
      (∀ q, dq = some q → q ≠ "" → fieldContainsCI d.department q = true) ∧
      (∀ q, pq = some q → q ≠ "" → fieldContainsCI d.position q = true)) := by
  refine ⟨rfl, ?_⟩
  simp only [searchEmployees, List.mem_filter, filterMatches, buildFilter,
    Bool.and_eq_true]
  exact and_congr_right fun _ =>
    and_congr (filterPartHolds_build_iff dq d.department)
      (filterPartHolds_build_iff pq d.position)

/-! Claim C7. -/

/-- C7: a delete whose identifier matches no stored Employee answers 404
and leaves the store unchanged; a delete of an existing identifier answers
200, a subsequent getEmployeeById with that identifier answers 404, and
every document with a different identifier is untouched. -/
theorem deleteEmployee_notfound_and_removal (db : List EmployeeDoc) (eid : Nat) :
    (empFindById db eid = none →
      deleteEmployeeById db eid = (.notFound 404 "Employee not found.", db)) ∧
    (∀ e, empFindById db eid = some e →
      (deleteEmployeeById db eid).1 = .ok 200 "Employee deleted successfully." ∧
      getEmployeeById (deleteEmployeeById db eid).2 eid =
        .notFound 404 "Employee not found." ∧
      (∀ d, d.id ≠ eid → (d ∈ (deleteEmployeeById db eid).2 ↔ d ∈ db))) := by
  refine ⟨fun h => ?_, fun e he => ⟨?_, ?_, fun d hd => ?_⟩⟩
  · simp [deleteEmployeeById, h]
  · simp [deleteEmployeeById, he]
  · have hnone : empFindById (db.filter (fun x => !(x.id == eid))) eid = none := by
      apply List.find?_eq_none.mpr
      intro x hx
      have := (List.mem_filter.mp hx).2
      simp only [Bool.not_eq_true'] at this
      simp [this]
    simp [deleteEmployeeById, he, getEmployeeById, hnone]
  · have hne : (d.id == eid) = false := by simp [hd]
    simp [deleteEmployeeById, he, List.mem_filter, hne]

/-- Witness for C7: deleting id 9 from the empty store answers 404; after
deleting the stored employee with id 3, a getEmployeeById of 3 answers
404. -/
theorem deleteEmployee_notfound_and_removal_witness :
    deleteEmployeeById [] 9 = (.notFound 404 "Employee not found.", []) ∧
    getEmployeeById
        (deleteEmployeeById
          [{ id := 3, first_name := some (.vStr "A"), last_name := some (.vStr "B"),
             email := some (.vStr "e@x.com"), position := some (.vStr "Dev"),
             salary := some (.vNum 1), date_of_joining := some (.vStr "2024-01-01"),
             department := some (.vStr "IT"), profileImageUrl := .nullValue,
             created_at := 0, updated_at := 0 }] 3).2 3 =
      .notFound 404 "Employee not found." := by
  constructor
  · exact (deleteEmployee_notfound_and_removal [] 9).1 rfl
  · exact ((deleteEmployee_notfound_and_removal
      [{ id := 3, first_name := some (.vStr "A"), last_name := some (.vStr "B"),
         email := some (.vStr "e@x.com"), position := some (.vStr "Dev"),
         salary := some (.vNum 1), date_of_joining := some (.vStr "2024-01-01"),
         department := some (.vStr "IT"), profileImageUrl := .nullValue,
         created_at := 0, updated_at := 0 }] 3).2
      { id := 3, first_name := some (.vStr "A"), last_name := some (.vStr "B"),
        email := some (.vStr "e@x.com"), position := some (.vStr "Dev"),
        salary := some (.vNum 1), date_of_joining := some (.vStr "2024-01-01"),
        department := some (.vStr "IT"), profileImageUrl := .nullValue,
        created_at := 0, updated_at := 0 } rfl).2.1

/-! Claim C8. -/

end EmpMgmt
